import Mathlib

/-!
Shallow embedding of the s9_websocket client library (Rust) for checking its
natural-language specification. The embedding translates, from the source:

* `src/error.rs` : the `S9WebSocketError` taxonomy;
* `src/websocket/shared.rs` : `handle_read_error`, `is_connection_closed_error`,
  `handle_control_message`, `close_websocket_with_logging`, the socket
  configuration helpers;
* `src/websocket/options.rs` : the two validated option builders;
* `src/websocket/async_client.rs`, `nonblocking_client.rs`,
  `blocking_client.rs` : the three event loops, modelled as step functions over
  per-iteration environment inputs (the control-channel poll result and the
  result of the one socket read), producing the trace of published events or
  handler callbacks.

Durations are modelled as natural numbers of nanoseconds (zero iff the Rust
`Duration::is_zero` holds). Byte payloads are lists of naturals. Error values
carry the text of their rendered form; the model does not distinguish the Debug
from the Display rendering of an error value, it carries the rendered text in
the constructor.
-/

-- ============================================================================
-- Error model (src/error.rs)
-- ============================================================================

/-- Io error kinds distinguished by the source (`std::io::ErrorKind`): the two
transient kinds the loops treat as no-data, and everything else. -/
inductive IoKind
  | wouldBlock
  | timedOut
  | otherKind
deriving DecidableEq, Repr

/-- Raw read/send failure from the protocol engine (`tungstenite::Error`).
The `String` payload of `Io` and `OtherErr` is the rendered text of the wrapped
error value, as it appears when the source formats the error. -/
inductive TgError
  | Io (kind : IoKind) (rendered : String)
  | ConnectionClosed
  | OtherErr (rendered : String)
deriving DecidableEq, Repr

/-- Rendered text of an error value, as interpolated by the format macros in
the source. -/
def renderErr : TgError → String
  | TgError.Io _ s => s
  | TgError.ConnectionClosed => "Connection closed"
  | TgError.OtherErr s => s

/-- Error taxonomy of src/error.rs (`S9WebSocketError`). -/
inductive S9WebSocketError
  | InvalidUri (msg : String)
  | ConnectionClosedErr (reason : Option String)
  | SocketUnavailable
  | InvalidConfiguration (msg : String)
  | IoError (msg : String)
  | Tungstenite (msg : String)
deriving DecidableEq, Repr

-- ============================================================================
-- Options (src/websocket/options.rs)
-- ============================================================================

/-- SharedOptions of options.rs. Durations are nanosecond counts. -/
structure SharedOptions where
  spin_wait_duration : Option Nat := none
  nodelay : Option Bool := none
  ttl : Option Nat := none
deriving DecidableEq, Repr

/-- NonBlockingOptions of options.rs. -/
structure NonBlockingOptions where
  shared : SharedOptions := {}
deriving DecidableEq, Repr

/-- BlockingOptions of options.rs. -/
structure BlockingOptions where
  shared : SharedOptions := {}
  read_timeout : Option Nat := none
  write_timeout : Option Nat := none
deriving DecidableEq, Repr

/-- Mirrors `Duration::is_zero` applied under `if let Some` in the builders:
true iff the optional duration is present and zero. -/
def optDurationIsZero : Option Nat → Bool
  | some d => d == 0
  | none => false

/-- Builder `NonBlockingOptions::spin_wait_duration` (options.rs lines 30-38). -/
def NonBlockingOptions.spin_wait_duration (o : NonBlockingOptions) (duration : Option Nat) :
    Except S9WebSocketError NonBlockingOptions :=
  if optDurationIsZero duration then
    Except.error (S9WebSocketError.InvalidConfiguration ("Spin wait duration cannot be zero"))
  else
    Except.ok { o with shared := { o.shared with spin_wait_duration := duration } }

/-- Builder `BlockingOptions::spin_wait_duration` (options.rs lines 71-79). -/
def BlockingOptions.spin_wait_duration (o : BlockingOptions) (duration : Option Nat) :
    Except S9WebSocketError BlockingOptions :=
  if optDurationIsZero duration then
    Except.error (S9WebSocketError.InvalidConfiguration ("Spin wait duration cannot be zero"))
  else
    Except.ok { o with shared := { o.shared with spin_wait_duration := duration } }

/-- Builder `BlockingOptions::read_timeout` (options.rs lines 96-104); named
with a `set_` prefixed form here because the Lean structure already uses the
source name for the field accessor. -/
def BlockingOptions.set_read_timeout (o : BlockingOptions) (timeout : Option Nat) :
    Except S9WebSocketError BlockingOptions :=
  if optDurationIsZero timeout then
    Except.error (S9WebSocketError.InvalidConfiguration ("Read timeout duration cannot be zero"))
  else
    Except.ok { o with read_timeout := timeout }

/-- Builder `BlockingOptions::write_timeout` (options.rs lines 108-116). -/
def BlockingOptions.set_write_timeout (o : BlockingOptions) (timeout : Option Nat) :
    Except S9WebSocketError BlockingOptions :=
  if optDurationIsZero timeout then
    Except.error (S9WebSocketError.InvalidConfiguration ("Write timeout duration cannot be zero"))
  else
    Except.ok { o with write_timeout := timeout }

-- ============================================================================
-- Shared helpers (src/websocket/shared.rs)
-- ============================================================================

/-- Substring containment on strings, the semantics of Rust
`str::contains(&str)` for a nonempty pattern. -/
def strContainsSub (s pat : String) : Bool :=
  (List.range (s.toList.length + 1)).any (fun i => pat.toList.isPrefixOf (s.toList.drop i))

/-- Embeds `is_connection_closed_error` (shared.rs lines 211-215): a rendered
error message indicates closure when it contains the substring
"Connection closed" or the substring "closed". -/
def is_connection_closed_error (error_msg : String) : Bool :=
  strContainsSub error_msg ("Connection closed") || strContainsSub error_msg ("closed")

/-- Embeds `handle_read_error` (shared.rs lines 125-148). Returns the optional
reason text and whether the loop should break. -/
def handle_read_error : TgError → Option String × Bool
  | TgError.Io IoKind.wouldBlock _ => (none, false)
  | TgError.Io IoKind.timedOut _ => (none, false)
  | TgError.ConnectionClosed => (some ("Connection closed normally"), true)
  | e => (some ("Failed to read from socket: " ++ renderErr e), true)

/-- ControlFlow of shared.rs. -/
inductive ControlFlow
  | Continue
  | Break
deriving DecidableEq, Repr

/-- ControlMessage of types.rs (the closed command set). -/
inductive ControlMessage
  | SendText (text : String)
  | SendBinary (data : List Nat)
  | SendPing (data : List Nat)
  | SendPong (data : List Nat)
  | Close
  | ForceQuit
deriving DecidableEq, Repr

/-- Outbound frames submitted to the protocol engine send and close calls. -/
inductive Frame
  | text (s : String)
  | binary (b : List Nat)
  | ping (b : List Nat)
  | pong (b : List Nat)
  | close
deriving DecidableEq, Repr

/-- Abstract state of the connection handle as the shared helpers observe it:
whether `can_write` holds, whether a send call currently fails (and with which
rendered error), and whether a close call currently fails. -/
structure Socket where
  canWrite : Bool
  sendErr : Option String
  closeErr : Option String
deriving DecidableEq, Repr

/-- Result of one protocol engine `send` call on the modelled socket. -/
def socket_send (sock : Socket) : Except String Unit :=
  match sock.sendErr with
  | none => Except.ok ()
  | some e => Except.error e

/-- Embeds `close_websocket_with_logging` (shared.rs lines 218-228): the close
call is issued only when the socket can still write; its error result is
consumed by logging and never propagated. Returns the frames submitted. -/
def close_websocket_with_logging (sock : Socket) : List Frame :=
  if sock.canWrite then [Frame.close] else []

/-- Embeds `handle_control_message` (shared.rs lines 85-122). Returns the
result reported to the loop together with the frames submitted to the engine. -/
def handle_control_message (control_msg : ControlMessage) (sock : Socket) :
    Except String ControlFlow × List Frame :=
  match control_msg with
  | ControlMessage.SendText text =>
      (match socket_send sock with
       | Except.error e => (Except.error ("Error sending text: " ++ e), [Frame.text text])
       | Except.ok _ => (Except.ok ControlFlow.Continue, [Frame.text text]))
  | ControlMessage.SendBinary data =>
      (match socket_send sock with
       | Except.error e => (Except.error ("Error sending binary: " ++ e), [Frame.binary data])
       | Except.ok _ => (Except.ok ControlFlow.Continue, [Frame.binary data]))
  | ControlMessage.SendPing data =>
      (match socket_send sock with
       | Except.error e => (Except.error ("Error sending ping: " ++ e), [Frame.ping data])
       | Except.ok _ => (Except.ok ControlFlow.Continue, [Frame.ping data]))
  | ControlMessage.SendPong data =>
      (match socket_send sock with
       | Except.error e => (Except.error ("Error sending pong: " ++ e), [Frame.pong data])
       | Except.ok _ => (Except.ok ControlFlow.Continue, [Frame.pong data]))
  | ControlMessage.Close =>
      (Except.ok ControlFlow.Continue, close_websocket_with_logging sock)
  | ControlMessage.ForceQuit =>
      (Except.ok ControlFlow.Break, [])

/-- Outcome of the read-failure handling as realised by the non-blocking and
async loops: classification by `handle_read_error` followed by the dispatch on
the reported reason (nonblocking_client.rs lines 95-110). -/
inductive LoopOutcome
  | continue_idle
  | continue_silent
  | closed_quit (reason : String)
  | error_quit (msg : String)
deriving DecidableEq, Repr

/-- Composition of `handle_read_error` with the loop dispatch on its result:
no reason means the loop idles and continues; a reason with the break flag is
routed through `is_connection_closed_error` into either the ConnectionClosed
or the Error terminal outcome, each followed by Quit and a break. -/
def classify_read_failure (e : TgError) : LoopOutcome :=
  match handle_read_error e with
  | (none, _) => LoopOutcome.continue_idle
  | (some msg, shouldBreak) =>
      if shouldBreak then
        if is_connection_closed_error msg then LoopOutcome.closed_quit msg
        else LoopOutcome.error_quit msg
      else LoopOutcome.continue_silent

/-- Recogniser for the error-terminal outcome. -/
def isErrorQuit : LoopOutcome → Bool
  | LoopOutcome.error_quit _ => true
  | _ => false

/-- Recogniser for a Break result of control handling. -/
def isBreakResult : Except String ControlFlow → Bool
  | Except.ok ControlFlow.Break => true
  | _ => false

/-- Recogniser for an error result of control handling. -/
def isErrResult : Except String ControlFlow → Bool
  | Except.error _ => true
  | _ => false

/-- Recogniser for the ForceQuit command. -/
def isForceQuitMsg : ControlMessage → Bool
  | ControlMessage.ForceQuit => true
  | _ => false

-- ============================================================================
-- Messages, events, callbacks (src/websocket/types.rs)
-- ============================================================================

/-- Inbound message returned by a successful protocol engine read
(`tungstenite::Message`). The payload of `CloseMsg` is the already rendered
optional close reason. -/
inductive WsMessage
  | Text (s : String)
  | Binary (b : List Nat)
  | Ping (b : List Nat)
  | Pong (b : List Nat)
  | CloseMsg (reason : Option String)
  | FrameMsg
deriving DecidableEq, Repr

/-- WebSocketEvent of types.rs, published by the async worker loop. -/
inductive WsEvent
  | Activated
  | TextMessage (b : String)
  | BinaryMessage (b : List Nat)
  | Ping (b : List Nat)
  | Pong (b : List Nat)
  | ConnectionClosed (reason : Option String)
  | Error (msg : String)
  | Quit
deriving DecidableEq, Repr

/-- Handler callback invocations of the two callback-driven clients
(`S9WebSocketClientHandler` of types.rs). -/
inductive CB
  | activated
  | poll
  | idle
  | textMessage (b : String)
  | binaryMessage (b : List Nat)
  | ping (b : List Nat)
  | pong (b : List Nat)
  | connectionClosed (reason : Option String)
  | error (msg : String)
  | quit
deriving DecidableEq, Repr

/-- Recogniser for the Activated event. -/
def isActivatedEvent : WsEvent → Bool
  | WsEvent.Activated => true
  | _ => false

/-- Recogniser for the ConnectionClosed event. -/
def isClosedEvent : WsEvent → Bool
  | WsEvent.ConnectionClosed _ => true
  | _ => false

/-- Recogniser for the Quit event. -/
def isQuitEvent : WsEvent → Bool
  | WsEvent.Quit => true
  | _ => false

/-- Recogniser for the on_activated callback. -/
def isActivatedCB : CB → Bool
  | CB.activated => true
  | _ => false

/-- Recogniser for the on_quit callback. -/
def isQuitCB : CB → Bool
  | CB.quit => true
  | _ => false

/-- Recogniser for terminal callbacks: on_connection_closed and on_error. -/
def isTerminalCB : CB → Bool
  | CB.connectionClosed _ => true
  | CB.error _ => true
  | _ => false

/-- True when the head of an event list is Quit. -/
def headIsQuitEvent : List WsEvent → Bool
  | [] => false
  | e :: _ => isQuitEvent e

/-- True when the head of a callback list is on_quit. -/
def headIsQuitCB : List CB → Bool
  | [] => false
  | c :: _ => isQuitCB c

/-- Trace predicate for the async event stream: every ConnectionClosed is
immediately followed by Quit. -/
def quitAfterClosed : List WsEvent → Bool
  | [] => true
  | e :: rest => (!isClosedEvent e || headIsQuitEvent rest) && quitAfterClosed rest

/-- Trace predicate for callback traces: every on_connection_closed and every
on_error is immediately followed by on_quit. -/
def quitAfterTerminal : List CB → Bool
  | [] => true
  | c :: rest => (!isTerminalCB c || headIsQuitCB rest) && quitAfterTerminal rest

-- ============================================================================
-- Async worker loop (src/websocket/async_client.rs lines 90-170)
-- ============================================================================

/-- Environment input of one iteration of the async worker loop: the result of
the non-blocking control poll (`control_rx.try_recv()`), the socket state this
iteration observes, whether the event channel still has a live receiver, and
the result of the one socket read. -/
structure AIter where
  ctrl : Option ControlMessage
  sock : Socket
  chOpen : Bool
  readResult : Except TgError WsMessage
deriving Repr

/-- Observable output of one iteration of the async worker loop: the events
submitted to the event channel in order (delivered exactly when the channel is
open), the frames submitted to the engine, and whether the loop breaks. -/
structure StepOut where
  events : List WsEvent
  sent : List Frame
  brk : Bool
deriving DecidableEq, Repr

/-- The read half of an async loop iteration (async_client.rs lines 114-163):
message dispatch publishes one event per message via send_or_break (so a closed
channel breaks the loop), a Close frame publishes ConnectionClosed then Quit
and breaks, and a read failure is classified by `handle_read_error` with the
terminal outcome publishing ConnectionClosed or Error followed by Quit before
breaking. Returns the published events and the break flag. -/
def asyncReadStep (chOpen : Bool) (rr : Except TgError WsMessage) : List WsEvent × Bool :=
  match rr with
  | Except.ok (WsMessage.Text s) => ([WsEvent.TextMessage s], !chOpen)
  | Except.ok (WsMessage.Binary b) => ([WsEvent.BinaryMessage b], !chOpen)
  | Except.ok (WsMessage.Ping b) => ([WsEvent.Ping b], !chOpen)
  | Except.ok (WsMessage.Pong b) => ([WsEvent.Pong b], !chOpen)
  | Except.ok (WsMessage.CloseMsg r) => ([WsEvent.ConnectionClosed r, WsEvent.Quit], true)
  | Except.ok WsMessage.FrameMsg => ([], false)
  | Except.error e =>
      match handle_read_error e with
      | (none, _) => ([], false)
      | (some msg, true) =>
          ([if is_connection_closed_error msg then WsEvent.ConnectionClosed (some msg)
            else WsEvent.Error msg,
            WsEvent.Quit], true)
      | (some _, false) => ([], false)

/-- One iteration of the async worker loop (async_client.rs lines 98-169):
first the control poll with `handle_control_message` dispatch, where Break
publishes Quit and breaks, and a send failure publishes Error via
send_or_break (breaking when the channel is closed, continuing otherwise);
then the read half. -/
def asyncStep (it : AIter) : StepOut :=
  match it.ctrl with
  | none =>
      let rs := asyncReadStep it.chOpen it.readResult
      { events := rs.1, sent := [], brk := rs.2 }
  | some cm =>
      let hc := handle_control_message cm it.sock
      match hc.1 with
      | Except.ok ControlFlow.Break => { events := [WsEvent.Quit], sent := hc.2, brk := true }
      | Except.ok ControlFlow.Continue =>
          let rs := asyncReadStep it.chOpen it.readResult
          { events := rs.1, sent := hc.2, brk := rs.2 }
      | Except.error e =>
          if it.chOpen then
            let rs := asyncReadStep it.chOpen it.readResult
            { events := WsEvent.Error e :: rs.1, sent := hc.2, brk := rs.2 }
          else
            { events := [WsEvent.Error e], sent := hc.2, brk := true }

/-- The async worker loop, run over a finite list of iteration environments.
The trace ends early when the loop breaks; an exhausted environment list means
the loop would keep running. -/
def asyncLoop : List AIter → List WsEvent
  | [] => []
  | it :: rest => (asyncStep it).events ++ (if (asyncStep it).brk then [] else asyncLoop rest)

/-- The async worker thread body (async_client.rs lines 90-170): the Activated
event is published once, before the loop. -/
def asyncRun (iters : List AIter) : List WsEvent :=
  WsEvent.Activated :: asyncLoop iters

/-- Ownership transfer at the head of `S9AsyncNonBlockingWebSocketClient::run`
(async_client.rs lines 70-80): `self.socket.take()` either yields the
connection (leaving the slot empty) or, when the slot is already empty because
an earlier call moved the connection to the worker thread, the method returns
the SocketUnavailable error. The returned pair is the moved connection and the
slot content after the call. -/
def asyncClient_run (socketSlot : Option Socket) :
    Except S9WebSocketError (Socket × Option Socket) :=
  match socketSlot with
  | some s => Except.ok (s, none)
  | none => Except.error S9WebSocketError.SocketUnavailable

-- ============================================================================
-- Non-blocking callback loop (src/websocket/nonblocking_client.rs lines 50-118)
-- ============================================================================

/-- Shared message dispatch of the two callback clients: one callback per
message, with a Close frame invoking on_connection_closed then on_quit and
breaking, and a raw Frame only traced. -/
def msgDispatchCB : WsMessage → List CB × Bool
  | WsMessage.Text s => ([CB.textMessage s], false)
  | WsMessage.Binary b => ([CB.binaryMessage b], false)
  | WsMessage.Ping b => ([CB.ping b], false)
  | WsMessage.Pong b => ([CB.pong b], false)
  | WsMessage.CloseMsg r => ([CB.connectionClosed r, CB.quit], true)
  | WsMessage.FrameMsg => ([], false)

/-- Environment input of one non-blocking loop iteration: the read result and
whether the handler invokes `force_quit` during any callback of this
iteration (setting the running flag to false). -/
structure NBIter where
  readResult : Except TgError WsMessage
  fq : Bool
deriving Repr

/-- The body of one non-blocking loop iteration after on_poll
(nonblocking_client.rs lines 64-111): successful reads go through the shared
message dispatch; failed reads through `handle_read_error`, where no reason
invokes on_idle, and a breaking reason invokes on_connection_closed or
on_error according to `is_connection_closed_error`, then on_quit, and breaks. -/
def nbDispatch (rr : Except TgError WsMessage) : List CB × Bool :=
  match rr with
  | Except.ok msg => msgDispatchCB msg
  | Except.error e =>
      match handle_read_error e with
      | (none, _) => ([CB.idle], false)
      | (some msg, true) =>
          ([if is_connection_closed_error msg then CB.connectionClosed (some msg)
            else CB.error msg,
            CB.quit], true)
      | (some _, false) => ([], false)

/-- One non-blocking loop iteration: on_poll, then the dispatch. -/
def nbStep (it : NBIter) : List CB × Bool :=
  (CB.poll :: (nbDispatch it.readResult).1, (nbDispatch it.readResult).2)

/-- The non-blocking `while self.running` loop: an iteration is followed by
another only when it neither broke nor cleared the running flag via
`force_quit`. -/
def nbLoop : List NBIter → List CB
  | [] => []
  | it :: rest => (nbStep it).1 ++ (if (nbStep it).2 || it.fq then [] else nbLoop rest)

/-- `S9NonBlockingWebSocketClient::run`: on_activated once before the loop;
when the handler calls force_quit inside on_activated the while condition is
already false and no iteration runs. -/
def nbRun (fqOnActivated : Bool) (iters : List NBIter) : List CB :=
  CB.activated :: (if fqOnActivated then [] else nbLoop iters)

-- ============================================================================
-- Blocking callback loop (src/websocket/blocking_client.rs lines 38-138)
-- ============================================================================

/-- Environment input of one blocking loop iteration. -/
structure BIter where
  readResult : Except TgError WsMessage
  fq : Bool
deriving Repr

/-- The body of one blocking loop iteration after on_poll (blocking_client.rs
lines 53-131): a WouldBlock or TimedOut read failure invokes on_idle and
continues when a read timeout was configured and otherwise invokes on_error
then on_quit and breaks; a ConnectionClosed failure invokes
on_connection_closed then on_quit and breaks; any other failure invokes
on_error then on_quit and breaks; successful reads go through the shared
message dispatch. -/
def blockingDispatch (opts : BlockingOptions) (rr : Except TgError WsMessage) :
    List CB × Bool :=
  match rr with
  | Except.ok msg => msgDispatchCB msg
  | Except.error e =>
      match e with
      | TgError.Io IoKind.wouldBlock s =>
          if opts.read_timeout.isSome then ([CB.idle], false)
          else ([CB.error ("Error reading message: " ++ s), CB.quit], true)
      | TgError.Io IoKind.timedOut s =>
          if opts.read_timeout.isSome then ([CB.idle], false)
          else ([CB.error ("Error reading message: " ++ s), CB.quit], true)
      | TgError.ConnectionClosed =>
          ([CB.connectionClosed (some ("Connection closed")), CB.quit], true)
      | e2 => ([CB.error ("Error reading message: " ++ renderErr e2), CB.quit], true)

/-- One blocking loop iteration: on_poll, then the dispatch. -/
def blockingStep (opts : BlockingOptions) (it : BIter) : List CB × Bool :=
  (CB.poll :: (blockingDispatch opts it.readResult).1, (blockingDispatch opts it.readResult).2)

/-- The blocking `while self.running` loop. -/
def blockingLoop (opts : BlockingOptions) : List BIter → List CB
  | [] => []
  | it :: rest =>
      (blockingStep opts it).1 ++
        (if (blockingStep opts it).2 || it.fq then [] else blockingLoop opts rest)

/-- `S9BlockingWebSocketClient::run`: on_activated once before the loop. -/
def blockingRun (opts : BlockingOptions) (fqOnActivated : Bool) (iters : List BIter) : List CB :=
  CB.activated :: (if fqOnActivated then [] else blockingLoop opts iters)

-- ============================================================================
-- Connect and socket configuration (shared.rs lines 24-81, client connects)
-- ============================================================================

/-- The variants of the transport stream the configuration helpers match on
(`MaybeTlsStream`): plaintext, native TLS, and the catch-all arm of the source
for stream kinds it does not configure. -/
inductive StreamKind
  | Plain
  | NativeTls
  | Unsupported
deriving DecidableEq, Repr

/-- Socket level configuration calls issued by the configuration helpers. -/
inductive SockOpt
  | nonblocking (b : Bool)
  | nodelay (b : Bool)
  | ttl (n : Nat)
  | readTimeout (d : Option Nat)
  | writeTimeout (d : Option Nat)
deriving DecidableEq, Repr

/-- Embeds `configure_non_blocking` (shared.rs lines 42-60): for a plaintext or
native TLS stream it marks the socket non-blocking, then applies no-delay and
TTL when configured; for other stream kinds it returns without configuring.
Returns the configuration calls in order. -/
def configure_non_blocking (kind : StreamKind) (o : NonBlockingOptions) : List SockOpt :=
  match kind with
  | StreamKind.Unsupported => []
  | _ =>
      [SockOpt.nonblocking true]
        ++ (match o.shared.nodelay with | some b => [SockOpt.nodelay b] | none => [])
        ++ (match o.shared.ttl with | some t => [SockOpt.ttl t] | none => [])

/-- Embeds `configure_blocking` (shared.rs lines 63-81): no-delay and TTL when
configured, then the read and write timeout calls, which are always issued
with the optional configured values. -/
def configure_blocking (kind : StreamKind) (o : BlockingOptions) : List SockOpt :=
  match kind with
  | StreamKind.Unsupported => []
  | _ =>
      (match o.shared.nodelay with | some b => [SockOpt.nodelay b] | none => [])
        ++ (match o.shared.ttl with | some t => [SockOpt.ttl t] | none => [])
        ++ [SockOpt.readTimeout o.read_timeout, SockOpt.writeTimeout o.write_timeout]

/-- Phases of a successful connect call, in the order the source performs
them. -/
inductive ConnectEvent
  | handshakeDone
  | applied (o : SockOpt)
  | handleReturned
deriving DecidableEq, Repr

/-- Recogniser for the handshake phase. -/
def isHandshakeEvent : ConnectEvent → Bool
  | ConnectEvent.handshakeDone => true
  | _ => false

/-- Recogniser for the non-blocking marking call. -/
def isNonblockingOpt : SockOpt → Bool
  | SockOpt.nonblocking _ => true
  | _ => false

/-- Phase trace of a successful `connect_with_headers` of the non-blocking and
async clients (nonblocking_client.rs lines 33-43, async_client.rs lines
31-47): handshake via `connect_socket`, then `configure_non_blocking`, then
the handle is built and returned. -/
def nb_connect_trace (kind : StreamKind) (o : NonBlockingOptions) : List ConnectEvent :=
  ConnectEvent.handshakeDone ::
    ((configure_non_blocking kind o).map ConnectEvent.applied ++ [ConnectEvent.handleReturned])

/-- Phase trace of a successful `connect_with_headers` of the blocking client
(blocking_client.rs lines 26-36). -/
def blocking_connect_trace (kind : StreamKind) (o : BlockingOptions) : List ConnectEvent :=
  ConnectEvent.handshakeDone ::
    ((configure_blocking kind o).map ConnectEvent.applied ++ [ConnectEvent.handleReturned])

-- ============================================================================
-- Theorems
-- ============================================================================

deriving instance DecidableEq for Except

/-- C3: calling run on the async client a second time, after the first call
has moved the connection handle onto the worker thread, returns a
SocketUnavailable error; it neither panics (the embedded function is total)
nor silently succeeds. The first call takes the connection and leaves the slot
empty, so the second call matches the empty slot and returns the typed error. -/
theorem c3_run_twice_socket_unavailable :
    (∀ s : Socket, asyncClient_run (some s) = Except.ok (s, none)) ∧
    asyncClient_run none = Except.error S9WebSocketError.SocketUnavailable :=
  ⟨fun _ => rfl, rfl⟩

/-- C9: every Options builder call among spin-wait duration (both option
kinds), read timeout and write timeout fails with InvalidConfiguration at
construction when given a present zero duration, and succeeds carrying the
value for every nonzero or absent duration. -/
theorem c9_options_zero_duration_validation :
    (∀ o, NonBlockingOptions.spin_wait_duration o (some 0) =
      Except.error (S9WebSocketError.InvalidConfiguration ("Spin wait duration cannot be zero"))) ∧
    (∀ o k, NonBlockingOptions.spin_wait_duration o (some (k + 1)) =
      Except.ok { o with shared := { o.shared with spin_wait_duration := some (k + 1) } }) ∧
    (∀ o, NonBlockingOptions.spin_wait_duration o none =
      Except.ok { o with shared := { o.shared with spin_wait_duration := none } }) ∧
    (∀ o, BlockingOptions.spin_wait_duration o (some 0) =
      Except.error (S9WebSocketError.InvalidConfiguration ("Spin wait duration cannot be zero"))) ∧
    (∀ o k, BlockingOptions.spin_wait_duration o (some (k + 1)) =
      Except.ok { o with shared := { o.shared with spin_wait_duration := some (k + 1) } }) ∧
    (∀ o, BlockingOptions.spin_wait_duration o none =
      Except.ok { o with shared := { o.shared with spin_wait_duration := none } }) ∧
    (∀ o, BlockingOptions.set_read_timeout o (some 0) =
      Except.error (S9WebSocketError.InvalidConfiguration ("Read timeout duration cannot be zero"))) ∧
    (∀ o k, BlockingOptions.set_read_timeout o (some (k + 1)) =
      Except.ok { o with read_timeout := some (k + 1) }) ∧
    (∀ o, BlockingOptions.set_read_timeout o none = Except.ok { o with read_timeout := none }) ∧
    (∀ o, BlockingOptions.set_write_timeout o (some 0) =
      Except.error (S9WebSocketError.InvalidConfiguration ("Write timeout duration cannot be zero"))) ∧
    (∀ o k, BlockingOptions.set_write_timeout o (some (k + 1)) =
      Except.ok { o with write_timeout := some (k + 1) }) ∧
    (∀ o, BlockingOptions.set_write_timeout o none = Except.ok { o with write_timeout := none }) := by
  refine ⟨fun o => rfl, fun o k => rfl, fun o => rfl, fun o => rfl, fun o k => rfl, fun o => rfl,
    fun o => rfl, fun o k => rfl, fun o => rfl, fun o => rfl, fun o k => rfl, fun o => rfl⟩

/-- C6: in the blocking strategy, a read failing with WouldBlock or TimedOut
invokes on_idle and the loop continues (unless the handler called force_quit)
when a read timeout was configured; with no read timeout configured the same
condition invokes on_error then on_quit and the loop breaks. -/
theorem c6_blocking_timeout_classification :
    (∀ sh d wt s fq rest,
      blockingLoop { shared := sh, read_timeout := some d, write_timeout := wt }
          ({ readResult := Except.error (TgError.Io IoKind.wouldBlock s), fq := fq } :: rest) =
        CB.poll :: CB.idle ::
          (if fq then []
           else blockingLoop { shared := sh, read_timeout := some d, write_timeout := wt } rest)) ∧
    (∀ sh d wt s fq rest,
      blockingLoop { shared := sh, read_timeout := some d, write_timeout := wt }
          ({ readResult := Except.error (TgError.Io IoKind.timedOut s), fq := fq } :: rest) =
        CB.poll :: CB.idle ::
          (if fq then []
           else blockingLoop { shared := sh, read_timeout := some d, write_timeout := wt } rest)) ∧
    (∀ sh wt s fq rest,
      blockingLoop { shared := sh, read_timeout := none, write_timeout := wt }
          ({ readResult := Except.error (TgError.Io IoKind.wouldBlock s), fq := fq } :: rest) =
        [CB.poll, CB.error ("Error reading message: " ++ s), CB.quit]) ∧
    (∀ sh wt s fq rest,
      blockingLoop { shared := sh, read_timeout := none, write_timeout := wt }
          ({ readResult := Except.error (TgError.Io IoKind.timedOut s), fq := fq } :: rest) =
        [CB.poll, CB.error ("Error reading message: " ++ s), CB.quit]) := by
  refine ⟨?_, ?_, ?_, ?_⟩ <;>
    · intros
      simp [blockingLoop, blockingStep, blockingDispatch]

/-- C1 counterexample: the claim states that any read failure other than the
WouldBlock and TimedOut conditions and the ConnectionClosed report emits Error
then Quit. The loops, however, route the formatted message of every breaking
failure through `is_connection_closed_error`, a substring test for "closed";
an other-kind error whose rendered text contains "closed" is therefore emitted
as ConnectionClosed, not Error. -/
theorem c1_counterexample :
    classify_read_failure (TgError.OtherErr ("stream closed")) =
      LoopOutcome.closed_quit ("Failed to read from socket: stream closed") ∧
    isErrorQuit (classify_read_failure (TgError.OtherErr ("stream closed"))) = false := by
  exact ⟨by decide, by decide⟩

/-- C1 as amended: every raw read failure is classified into exactly one
outcome: WouldBlock and TimedOut continue the loop (invoking on_idle in
callback mode); a ConnectionClosed report emits ConnectionClosed then Quit and
breaks; any other error is formatted and emits Error then Quit and breaks,
unless its formatted message contains "Connection closed" or "closed", in
which case ConnectionClosed then Quit is emitted instead. The second conjunct
shows the non-blocking loop dispatch realising the classification. -/
theorem c1_read_error_classification :
    (∀ e : TgError,
      classify_read_failure e =
        match e with
        | TgError.Io IoKind.wouldBlock _ => LoopOutcome.continue_idle
        | TgError.Io IoKind.timedOut _ => LoopOutcome.continue_idle
        | TgError.ConnectionClosed => LoopOutcome.closed_quit ("Connection closed normally")
        | e2 =>
            if is_connection_closed_error ("Failed to read from socket: " ++ renderErr e2) then
              LoopOutcome.closed_quit ("Failed to read from socket: " ++ renderErr e2)
            else
              LoopOutcome.error_quit ("Failed to read from socket: " ++ renderErr e2)) ∧
    (∀ e : TgError,
      nbDispatch (Except.error e) =
        match classify_read_failure e with
        | LoopOutcome.continue_idle => ([CB.idle], false)
        | LoopOutcome.continue_silent => ([], false)
        | LoopOutcome.closed_quit m => ([CB.connectionClosed (some m), CB.quit], true)
        | LoopOutcome.error_quit m => ([CB.error m, CB.quit], true)) := by
  constructor
  · intro e
    rcases e with ⟨k, s⟩ | _ | s
    · rcases k <;> simp [classify_read_failure, handle_read_error]
    · decide
    · simp [classify_read_failure, handle_read_error]
  · intro e
    rcases e with ⟨k, s⟩ | _ | s
    · rcases k
      · rfl
      · rfl
      · simp only [classify_read_failure, handle_read_error, nbDispatch]
        split <;> simp_all
    · simp only [classify_read_failure, handle_read_error, nbDispatch]
      split <;> simp_all
    · simp only [classify_read_failure, handle_read_error, nbDispatch]
      split <;> simp_all

/-- C2 counterexample: the claim states that Close sends a close frame and the
loop continues. On a connection whose socket can no longer write (reachable on
a running connection, for instance after an earlier Close already sent the
close frame), applying Close submits no frame at all: the sent frame list is
empty, while the result is still Continue. -/
theorem c2_counterexample :
    handle_control_message ControlMessage.Close
        { canWrite := false, sendErr := none, closeErr := none } =
      (Except.ok ControlFlow.Continue, []) := by
  rfl

/-- C2 as amended: SendText, SendBinary, SendPing and SendPong each submit
exactly one outbound frame send, and a failure of that send is surfaced as an
Error event while the loop continues (shown for the async loop with the
channel open and a transient read); Close requests the close frame, which is
submitted only when the socket is still writable, and the loop continues;
ForceQuit is the only command whose application reports Break. -/
theorem c2_control_command_application :
    (∀ sock t, handle_control_message (ControlMessage.SendText t) sock =
      ((match sock.sendErr with
        | none => Except.ok ControlFlow.Continue
        | some e => Except.error ("Error sending text: " ++ e)), [Frame.text t])) ∧
    (∀ sock d, handle_control_message (ControlMessage.SendBinary d) sock =
      ((match sock.sendErr with
        | none => Except.ok ControlFlow.Continue
        | some e => Except.error ("Error sending binary: " ++ e)), [Frame.binary d])) ∧
    (∀ sock d, handle_control_message (ControlMessage.SendPing d) sock =
      ((match sock.sendErr with
        | none => Except.ok ControlFlow.Continue
        | some e => Except.error ("Error sending ping: " ++ e)), [Frame.ping d])) ∧
    (∀ sock d, handle_control_message (ControlMessage.SendPong d) sock =
      ((match sock.sendErr with
        | none => Except.ok ControlFlow.Continue
        | some e => Except.error ("Error sending pong: " ++ e)), [Frame.pong d])) ∧
    (∀ sock, handle_control_message ControlMessage.Close sock =
      (Except.ok ControlFlow.Continue, if sock.canWrite then [Frame.close] else [])) ∧
    (∀ sock, handle_control_message ControlMessage.ForceQuit sock =
      (Except.ok ControlFlow.Break, [])) ∧
    (∀ cm sock, isBreakResult (handle_control_message cm sock).1 = isForceQuitMsg cm) ∧
    (∀ t e cw ce s,
      asyncStep { ctrl := some (ControlMessage.SendText t),
                  sock := { canWrite := cw, sendErr := some e, closeErr := ce },
                  chOpen := true,
                  readResult := Except.error (TgError.Io IoKind.wouldBlock s) } =
        { events := [WsEvent.Error ("Error sending text: " ++ e)],
          sent := [Frame.text t], brk := false }) ∧
    (∀ cw se ce s rest,
      asyncLoop ({ ctrl := some ControlMessage.Close,
                   sock := { canWrite := cw, sendErr := se, closeErr := ce },
                   chOpen := true,
                   readResult := Except.error (TgError.Io IoKind.wouldBlock s) } :: rest) =
        asyncLoop rest) := by
  refine ⟨?_, ?_, ?_, ?_, ?_, ?_, ?_, ?_, ?_⟩
  · intro sock t
    rcases sock with ⟨cw, se, ce⟩
    rcases se <;> rfl
  · intro sock d
    rcases sock with ⟨cw, se, ce⟩
    rcases se <;> rfl
  · intro sock d
    rcases sock with ⟨cw, se, ce⟩
    rcases se <;> rfl
  · intro sock d
    rcases sock with ⟨cw, se, ce⟩
    rcases se <;> rfl
  · intro sock
    rcases sock with ⟨cw, se, ce⟩
    rcases cw <;> rfl
  · intro sock
    rfl
  · intro cm sock
    rcases sock with ⟨cw, se, ce⟩
    rcases cm <;> rcases se <;> rfl
  · intro t e cw ce s
    rfl
  · intro cw se ce s rest
    rcases se <;>
      simp [asyncLoop, asyncStep, handle_control_message, asyncReadStep, handle_read_error,
        close_websocket_with_logging, socket_send]

/-- C10: applying the Close control command always reports Continue, for every
socket state: when the socket can no longer write no frame is submitted at
all, and a failing close call changes nothing observable (the result is
independent of the close error), so a failed Close never surfaces as an error
result, in contrast to failed Send commands whose application reports an error
exactly when the send fails. -/
theorem c10_close_silent_continue :
    (∀ sock, handle_control_message ControlMessage.Close sock =
      (Except.ok ControlFlow.Continue, if sock.canWrite then [Frame.close] else [])) ∧
    (∀ cw se ce1 ce2,
      handle_control_message ControlMessage.Close { canWrite := cw, sendErr := se, closeErr := ce1 } =
        handle_control_message ControlMessage.Close { canWrite := cw, sendErr := se, closeErr := ce2 }) ∧
    (∀ se ce, close_websocket_with_logging { canWrite := false, sendErr := se, closeErr := ce } = []) ∧
    (∀ sock, isErrResult (handle_control_message ControlMessage.Close sock).1 = false) ∧
    (∀ sock t, isErrResult (handle_control_message (ControlMessage.SendText t) sock).1 =
      sock.sendErr.isSome) := by
  refine ⟨?_, ?_, ?_, ?_, ?_⟩
  · intro sock
    rcases sock with ⟨cw, se, ce⟩
    rcases cw <;> rfl
  · intro cw se ce1 ce2
    rcases cw <;> rfl
  · intro se ce
    rfl
  · intro sock
    rcases sock with ⟨cw, se, ce⟩
    rcases cw <;> rfl
  · intro sock t
    rcases sock with ⟨cw, se, ce⟩
    rcases se <;> rfl

/-- Helper: with a dead event channel, the read half of an async iteration
either publishes nothing or breaks the loop. -/
lemma asyncReadStep_dead_channel (rr : Except TgError WsMessage) :
    (asyncReadStep false rr).1 = [] ∨ (asyncReadStep false rr).2 = true := by
  rcases rr with e | msg
  · rcases e with ⟨k, s⟩ | _ | s
    · rcases k <;> simp [asyncReadStep, handle_read_error]
    · simp [asyncReadStep, handle_read_error]
    · simp [asyncReadStep, handle_read_error]
  · rcases msg <;> simp [asyncReadStep]

/-- C7: in the async worker loop every event is reported by publishing it to
the event channel (the iteration output is exactly the publish list), and a
publish against a dropped receiver is fatal: in any iteration against a dead
channel, either no publish was attempted or the loop breaks in that same
iteration. -/
theorem c7_publish_failure_fatal :
    ∀ ctrl sock rr,
      (asyncStep { ctrl := ctrl, sock := sock, chOpen := false, readResult := rr }).events = [] ∨
      (asyncStep { ctrl := ctrl, sock := sock, chOpen := false, readResult := rr }).brk = true := by
  intro ctrl sock rr
  rcases sock with ⟨cw, se, ce⟩
  rcases ctrl with _ | cm
  · rcases asyncReadStep_dead_channel rr with h | h
    · exact Or.inl (by simp [asyncStep, h])
    · exact Or.inr (by simp [asyncStep, h])
  · rcases cm
    case SendText t =>
      rcases se with _ | e
      · rcases asyncReadStep_dead_channel rr with h | h
        · exact Or.inl (by simp [asyncStep, handle_control_message, socket_send, h])
        · exact Or.inr (by simp [asyncStep, handle_control_message, socket_send, h])
      · exact Or.inr (by simp [asyncStep, handle_control_message, socket_send])
    case SendBinary d =>
      rcases se with _ | e
      · rcases asyncReadStep_dead_channel rr with h | h
        · exact Or.inl (by simp [asyncStep, handle_control_message, socket_send, h])
        · exact Or.inr (by simp [asyncStep, handle_control_message, socket_send, h])
      · exact Or.inr (by simp [asyncStep, handle_control_message, socket_send])
    case SendPing d =>
      rcases se with _ | e
      · rcases asyncReadStep_dead_channel rr with h | h
        · exact Or.inl (by simp [asyncStep, handle_control_message, socket_send, h])
        · exact Or.inr (by simp [asyncStep, handle_control_message, socket_send, h])
      · exact Or.inr (by simp [asyncStep, handle_control_message, socket_send])
    case SendPong d =>
      rcases se with _ | e
      · rcases asyncReadStep_dead_channel rr with h | h
        · exact Or.inl (by simp [asyncStep, handle_control_message, socket_send, h])
        · exact Or.inr (by simp [asyncStep, handle_control_message, socket_send, h])
      · exact Or.inr (by simp [asyncStep, handle_control_message, socket_send])
    case Close =>
      rcases asyncReadStep_dead_channel rr with h | h
      · exact Or.inl (by simp [asyncStep, handle_control_message, h])
      · exact Or.inr (by simp [asyncStep, handle_control_message, h])
    case ForceQuit =>
      exact Or.inr (by simp [asyncStep, handle_control_message])

/-- C4 counterexample: in the non-blocking callback strategy, a handler that
calls force_quit during an iteration terminates the loop before the next
iteration, but no on_quit callback is produced: the complete run trace for a
one-iteration environment with an idle read is on_activated, on_poll, on_idle,
and contains no on_quit. -/
theorem c4_counterexample :
    nbRun false [{ readResult := Except.error (TgError.Io IoKind.wouldBlock ("x")), fq := true }] =
      [CB.activated, CB.poll, CB.idle] ∧
    List.filter isQuitCB
        (nbRun false [{ readResult := Except.error (TgError.Io IoKind.wouldBlock ("x")), fq := true }]) =
      [] := by
  exact ⟨by decide, by decide⟩

/-- C4 as amended: for the async strategy, the ForceQuit control message
publishes a Quit event and breaks the loop within that same iteration, before
the read and regardless of the pending read result or socket state; for the
two callback strategies, calling force_quit during an iteration terminates the
loop before any further iteration runs (the trace of the whole remaining run
is exactly that single iteration), but no on_quit callback is produced by this
path. -/
theorem c4_force_quit_termination :
    (∀ sock ch rr,
      asyncStep { ctrl := some ControlMessage.ForceQuit, sock := sock, chOpen := ch,
                  readResult := rr } =
        { events := [WsEvent.Quit], sent := [], brk := true }) ∧
    (∀ sock ch rr rest,
      asyncLoop ({ ctrl := some ControlMessage.ForceQuit, sock := sock, chOpen := ch,
                   readResult := rr } :: rest) = [WsEvent.Quit]) ∧
    (∀ rr rest, nbLoop ({ readResult := rr, fq := true } :: rest) =
      (nbStep { readResult := rr, fq := true }).1) ∧
    (∀ opts rr rest, blockingLoop opts ({ readResult := rr, fq := true } :: rest) =
      (blockingStep opts { readResult := rr, fq := true }).1) := by
  refine ⟨?_, ?_, ?_, ?_⟩
  · intro sock ch rr
    rfl
  · intro sock ch rr rest
    simp [asyncLoop, asyncStep, handle_control_message]
  · intro rr rest
    simp [nbLoop]
  · intro opts rr rest
    simp [blockingLoop]

/-- Helper: applied-configuration events are never the handshake phase. -/
lemma filter_handshake_map_applied (l : List SockOpt) :
    List.filter isHandshakeEvent (l.map ConnectEvent.applied) = [] := by
  induction l with
  | nil => rfl
  | cons o rest ih => simp [isHandshakeEvent, ih]

/-- C8: for every successful connect call the socket configuration is applied
exactly once, immediately after the successful handshake and before the handle
is returned: the connect phase trace is handshake, then the configuration
calls, then the handle return, with exactly one handshake phase and the return
last. On the configured stream kinds the non-blocking configuration marks the
socket non-blocking exactly once and applies no-delay and TTL exactly when
configured, and the blocking configuration applies no-delay and TTL when
configured and then the read and write timeout calls. -/
theorem c8_connect_configuration_once :
    (∀ swd nd t,
      configure_non_blocking StreamKind.Plain
          { shared := { spin_wait_duration := swd, nodelay := nd, ttl := t } } =
        [SockOpt.nonblocking true]
          ++ (match nd with | some b => [SockOpt.nodelay b] | none => [])
          ++ (match t with | some v => [SockOpt.ttl v] | none => [])) ∧
    (∀ swd nd t,
      configure_non_blocking StreamKind.NativeTls
          { shared := { spin_wait_duration := swd, nodelay := nd, ttl := t } } =
        [SockOpt.nonblocking true]
          ++ (match nd with | some b => [SockOpt.nodelay b] | none => [])
          ++ (match t with | some v => [SockOpt.ttl v] | none => [])) ∧
    (∀ swd nd t rt wt,
      configure_blocking StreamKind.Plain
          { shared := { spin_wait_duration := swd, nodelay := nd, ttl := t },
            read_timeout := rt, write_timeout := wt } =
        (match nd with | some b => [SockOpt.nodelay b] | none => [])
          ++ (match t with | some v => [SockOpt.ttl v] | none => [])
          ++ [SockOpt.readTimeout rt, SockOpt.writeTimeout wt]) ∧
    (∀ swd nd t rt wt,
      configure_blocking StreamKind.NativeTls
          { shared := { spin_wait_duration := swd, nodelay := nd, ttl := t },
            read_timeout := rt, write_timeout := wt } =
        (match nd with | some b => [SockOpt.nodelay b] | none => [])
          ++ (match t with | some v => [SockOpt.ttl v] | none => [])
          ++ [SockOpt.readTimeout rt, SockOpt.writeTimeout wt]) ∧
    (∀ o, List.filter isNonblockingOpt (configure_non_blocking StreamKind.Plain o) =
      [SockOpt.nonblocking true]) ∧
    (∀ o, List.filter isNonblockingOpt (configure_non_blocking StreamKind.NativeTls o) =
      [SockOpt.nonblocking true]) ∧
    (∀ kind o, List.filter isHandshakeEvent (nb_connect_trace kind o) =
      [ConnectEvent.handshakeDone]) ∧
    (∀ kind o, List.filter isHandshakeEvent (blocking_connect_trace kind o) =
      [ConnectEvent.handshakeDone]) ∧
    (∀ kind o, (nb_connect_trace kind o).head? = some ConnectEvent.handshakeDone) ∧
    (∀ kind o, (nb_connect_trace kind o).getLast? = some ConnectEvent.handleReturned) ∧
    (∀ kind o, (blocking_connect_trace kind o).head? = some ConnectEvent.handshakeDone) ∧
    (∀ kind o, (blocking_connect_trace kind o).getLast? = some ConnectEvent.handleReturned) := by
  refine ⟨?_, ?_, ?_, ?_, ?_, ?_, ?_, ?_, ?_, ?_, ?_, ?_⟩
  · intro swd nd t
    rfl
  · intro swd nd t
    rfl
  · intro swd nd t rt wt
    rfl
  · intro swd nd t rt wt
    rfl
  · intro o
    rcases o with ⟨⟨swd, nd, t⟩⟩
    rcases nd <;> rcases t <;>
      simp [configure_non_blocking, isNonblockingOpt, List.filter_append]
  · intro o
    rcases o with ⟨⟨swd, nd, t⟩⟩
    rcases nd <;> rcases t <;>
      simp [configure_non_blocking, isNonblockingOpt, List.filter_append]
  · intro kind o
    simp [nb_connect_trace, isHandshakeEvent, List.filter_append,
      filter_handshake_map_applied]
  · intro kind o
    simp [blocking_connect_trace, isHandshakeEvent, List.filter_append,
      filter_handshake_map_applied]
  · intro kind o
    rfl
  · intro kind o
    rw [nb_connect_trace, ← List.cons_append, List.getLast?_concat]
  · intro kind o
    rfl
  · intro kind o
    rw [blocking_connect_trace, ← List.cons_append, List.getLast?_concat]

/-- Helper: a callback list with no terminal callback does not affect the
terminal-ordering predicate when prepended. -/
lemma qat_append_no_terminal (l t : List CB)
    (h : l.all (fun c => !isTerminalCB c) = true) :
    quitAfterTerminal (l ++ t) = quitAfterTerminal t := by
  induction l with
  | nil => rfl
  | cons c cs ih =>
      simp only [List.all_cons, Bool.and_eq_true, Bool.not_eq_eq_eq_not, Bool.not_true] at h
      simp [quitAfterTerminal, h.1, ih h.2]

/-- Helper: a callback list with no terminal callback satisfies the
terminal-ordering predicate. -/
lemma qat_of_no_terminal (l : List CB) (h : l.all (fun c => !isTerminalCB c) = true) :
    quitAfterTerminal l = true := by
  have := qat_append_no_terminal l [] h
  simpa using this

/-- Helper: an event list with no ConnectionClosed event does not affect the
closed-ordering predicate when prepended. -/
lemma qac_append_no_closed (l t : List WsEvent)
    (h : l.all (fun e => !isClosedEvent e) = true) :
    quitAfterClosed (l ++ t) = quitAfterClosed t := by
  induction l with
  | nil => rfl
  | cons c cs ih =>
      simp only [List.all_cons, Bool.and_eq_true, Bool.not_eq_eq_eq_not, Bool.not_true] at h
      simp [quitAfterClosed, h.1, ih h.2]

/-- Helper: an event list with no ConnectionClosed event satisfies the
closed-ordering predicate. -/
lemma qac_of_no_closed (l : List WsEvent) (h : l.all (fun e => !isClosedEvent e) = true) :
    quitAfterClosed l = true := by
  have := qac_append_no_closed l [] h
  simpa using this

/-- Helper: per-iteration analysis of the non-blocking step: it never invokes
on_activated, and it either breaks with a trace satisfying the
terminal-ordering predicate or continues with a trace containing no terminal
callback. -/
lemma nbStep_props (it : NBIter) :
    List.filter isActivatedCB (nbStep it).1 = [] ∧
    (((nbStep it).2 = true ∧ quitAfterTerminal (nbStep it).1 = true) ∨
     ((nbStep it).2 = false ∧ (nbStep it).1.all (fun c => !isTerminalCB c) = true)) := by
  rcases it with ⟨rr, fq⟩
  rcases rr with e | msg
  · rcases e with ⟨k, s⟩ | _ | s
    · rcases k
      · exact ⟨by rfl, Or.inr ⟨rfl, by rfl⟩⟩
      · exact ⟨by rfl, Or.inr ⟨rfl, by rfl⟩⟩
      · cases hc : is_connection_closed_error ("Failed to read from socket: " ++ s) <;>
          · constructor
            · simp [nbStep, nbDispatch, handle_read_error, renderErr, hc, isActivatedCB]
            · exact Or.inl ⟨by simp [nbStep, nbDispatch, handle_read_error, renderErr, hc],
                by simp [nbStep, nbDispatch, handle_read_error, renderErr, hc,
                  quitAfterTerminal, isTerminalCB, headIsQuitCB, isQuitCB]⟩
    · have hc : is_connection_closed_error ("Connection closed normally") = true := by decide
      constructor
      · simp [nbStep, nbDispatch, handle_read_error, hc, isActivatedCB]
      · exact Or.inl ⟨by simp [nbStep, nbDispatch, handle_read_error],
          by simp [nbStep, nbDispatch, handle_read_error, hc, quitAfterTerminal, isTerminalCB,
            headIsQuitCB, isQuitCB]⟩
    · cases hc : is_connection_closed_error ("Failed to read from socket: " ++ s) <;>
        · constructor
          · simp [nbStep, nbDispatch, handle_read_error, renderErr, hc, isActivatedCB]
          · exact Or.inl ⟨by simp [nbStep, nbDispatch, handle_read_error, renderErr, hc],
              by simp [nbStep, nbDispatch, handle_read_error, renderErr, hc,
                quitAfterTerminal, isTerminalCB, headIsQuitCB, isQuitCB]⟩
  · rcases msg <;>
      first
      | exact ⟨by rfl, Or.inr ⟨rfl, by rfl⟩⟩
      | exact ⟨by rfl, Or.inl ⟨rfl, by rfl⟩⟩

/-- Helper: the non-blocking loop never invokes on_activated. -/
lemma nbLoop_no_activated (iters : List NBIter) :
    List.filter isActivatedCB (nbLoop iters) = [] := by
  induction iters with
  | nil => rfl
  | cons it rest ih =>
      rcases nbStep_props it with ⟨h1, -⟩
      cases hb : ((nbStep it).2 || it.fq) <;>
        simp [nbLoop, hb, List.filter_append, h1, ih]

/-- Helper: every non-blocking loop trace satisfies the terminal-ordering
predicate. -/
lemma nbLoop_qat (iters : List NBIter) : quitAfterTerminal (nbLoop iters) = true := by
  induction iters with
  | nil => rfl
  | cons it rest ih =>
      rcases nbStep_props it with ⟨-, h | h⟩
      · have hb : ((nbStep it).2 || it.fq) = true := by simp [h.1]
        simpa [nbLoop, hb] using h.2
      · cases hfq : it.fq
        · have hb : ((nbStep it).2 || it.fq) = false := by simp [h.1, hfq]
          rw [nbLoop, hb]
          simpa [qat_append_no_terminal _ _ h.2] using ih
        · have hb : ((nbStep it).2 || it.fq) = true := by simp [hfq]
          rw [nbLoop, hb]
          simpa using qat_of_no_terminal _ h.2

/-- Helper: per-iteration analysis of the blocking step: it never invokes
on_activated, and it either breaks with a trace satisfying the
terminal-ordering predicate or continues with a trace containing no terminal
callback. -/
lemma blockingStep_props (opts : BlockingOptions) (it : BIter) :
    List.filter isActivatedCB (blockingStep opts it).1 = [] ∧
    (((blockingStep opts it).2 = true ∧ quitAfterTerminal (blockingStep opts it).1 = true) ∨
     ((blockingStep opts it).2 = false ∧
       (blockingStep opts it).1.all (fun c => !isTerminalCB c) = true)) := by
  rcases it with ⟨rr, fq⟩
  rcases rr with e | msg
  · rcases e with ⟨k, s⟩ | _ | s
    · rcases k
      · cases ht : opts.read_timeout.isSome
        · constructor
          · simp [blockingStep, blockingDispatch, ht, isActivatedCB]
          · exact Or.inl ⟨by simp [blockingStep, blockingDispatch, ht], by
              simp [blockingStep, blockingDispatch, ht, quitAfterTerminal, isTerminalCB,
                headIsQuitCB, isQuitCB]⟩
        · constructor
          · simp [blockingStep, blockingDispatch, ht, isActivatedCB]
          · exact Or.inr ⟨by simp [blockingStep, blockingDispatch, ht], by
              simp [blockingStep, blockingDispatch, ht, isTerminalCB]⟩
      · cases ht : opts.read_timeout.isSome
        · constructor
          · simp [blockingStep, blockingDispatch, ht, isActivatedCB]
          · exact Or.inl ⟨by simp [blockingStep, blockingDispatch, ht], by
              simp [blockingStep, blockingDispatch, ht, quitAfterTerminal, isTerminalCB,
                headIsQuitCB, isQuitCB]⟩
        · constructor
          · simp [blockingStep, blockingDispatch, ht, isActivatedCB]
          · exact Or.inr ⟨by simp [blockingStep, blockingDispatch, ht], by
              simp [blockingStep, blockingDispatch, ht, isTerminalCB]⟩
      · constructor
        · simp [blockingStep, blockingDispatch, isActivatedCB]
        · exact Or.inl ⟨by simp [blockingStep, blockingDispatch], by
            simp [blockingStep, blockingDispatch, quitAfterTerminal, isTerminalCB,
              headIsQuitCB, isQuitCB]⟩
    · constructor
      · simp [blockingStep, blockingDispatch, isActivatedCB]
      · exact Or.inl ⟨by simp [blockingStep, blockingDispatch], by
          simp [blockingStep, blockingDispatch, quitAfterTerminal, isTerminalCB,
            headIsQuitCB, isQuitCB]⟩
    · constructor
      · simp [blockingStep, blockingDispatch, isActivatedCB]
      · exact Or.inl ⟨by simp [blockingStep, blockingDispatch], by
          simp [blockingStep, blockingDispatch, quitAfterTerminal, isTerminalCB,
            headIsQuitCB, isQuitCB]⟩
  · rcases msg <;>
      first
      | exact ⟨by rfl, Or.inr ⟨rfl, by rfl⟩⟩
      | exact ⟨by rfl, Or.inl ⟨rfl, by rfl⟩⟩

/-- Helper: the blocking loop never invokes on_activated. -/
lemma blockingLoop_no_activated (opts : BlockingOptions) (iters : List BIter) :
    List.filter isActivatedCB (blockingLoop opts iters) = [] := by
  induction iters with
  | nil => rfl
  | cons it rest ih =>
      rcases blockingStep_props opts it with ⟨h1, -⟩
      cases hb : ((blockingStep opts it).2 || it.fq) <;>
        simp [blockingLoop, hb, List.filter_append, h1, ih]

/-- Helper: every blocking loop trace satisfies the terminal-ordering
predicate. -/
lemma blockingLoop_qat (opts : BlockingOptions) (iters : List BIter) :
    quitAfterTerminal (blockingLoop opts iters) = true := by
  induction iters with
  | nil => rfl
  | cons it rest ih =>
      rcases blockingStep_props opts it with ⟨-, h | h⟩
      · have hb : ((blockingStep opts it).2 || it.fq) = true := by simp [h.1]
        simpa [blockingLoop, hb] using h.2
      · cases hfq : it.fq
        · have hb : ((blockingStep opts it).2 || it.fq) = false := by simp [h.1, hfq]
          rw [blockingLoop, hb]
          simpa [qat_append_no_terminal _ _ h.2] using ih
        · have hb : ((blockingStep opts it).2 || it.fq) = true := by simp [hfq]
          rw [blockingLoop, hb]
          simpa using qat_of_no_terminal _ h.2

/-- Helper: per-iteration analysis of the read half of the async loop: it
never publishes Activated, and it either breaks with a publish list satisfying
the closed-ordering predicate or continues with a publish list containing no
ConnectionClosed. -/
lemma asyncReadStep_props (c : Bool) (rr : Except TgError WsMessage) :
    List.filter isActivatedEvent (asyncReadStep c rr).1 = [] ∧
    (((asyncReadStep c rr).2 = true ∧ quitAfterClosed (asyncReadStep c rr).1 = true) ∨
     ((asyncReadStep c rr).2 = false ∧
       (asyncReadStep c rr).1.all (fun e => !isClosedEvent e) = true)) := by
  rcases rr with e | msg
  · rcases e with ⟨k, s⟩ | _ | s
    · rcases k
      · exact ⟨by rfl, Or.inr ⟨by rfl, by rfl⟩⟩
      · exact ⟨by rfl, Or.inr ⟨by rfl, by rfl⟩⟩
      · cases hc : is_connection_closed_error ("Failed to read from socket: " ++ s)
        · constructor
          · simp [asyncReadStep, handle_read_error, renderErr, hc, isActivatedEvent]
          · exact Or.inl ⟨by simp [asyncReadStep, handle_read_error, renderErr, hc], by
              simp [asyncReadStep, handle_read_error, renderErr, hc, quitAfterClosed,
                isClosedEvent, headIsQuitEvent, isQuitEvent]⟩
        · constructor
          · simp [asyncReadStep, handle_read_error, renderErr, hc, isActivatedEvent]
          · exact Or.inl ⟨by simp [asyncReadStep, handle_read_error, renderErr, hc], by
              simp [asyncReadStep, handle_read_error, renderErr, hc, quitAfterClosed,
                isClosedEvent, headIsQuitEvent, isQuitEvent]⟩
    · have hc : is_connection_closed_error ("Connection closed normally") = true := by decide
      constructor
      · simp [asyncReadStep, handle_read_error, hc, isActivatedEvent]
      · exact Or.inl ⟨by simp [asyncReadStep, handle_read_error], by
          simp [asyncReadStep, handle_read_error, hc, quitAfterClosed, isClosedEvent,
            headIsQuitEvent, isQuitEvent]⟩
    · cases hc : is_connection_closed_error ("Failed to read from socket: " ++ s)
      · constructor
        · simp [asyncReadStep, handle_read_error, renderErr, hc, isActivatedEvent]
        · exact Or.inl ⟨by simp [asyncReadStep, handle_read_error, renderErr, hc], by
            simp [asyncReadStep, handle_read_error, renderErr, hc, quitAfterClosed,
              isClosedEvent, headIsQuitEvent, isQuitEvent]⟩
      · constructor
        · simp [asyncReadStep, handle_read_error, renderErr, hc, isActivatedEvent]
        · exact Or.inl ⟨by simp [asyncReadStep, handle_read_error, renderErr, hc], by
            simp [asyncReadStep, handle_read_error, renderErr, hc, quitAfterClosed,
              isClosedEvent, headIsQuitEvent, isQuitEvent]⟩
  · rcases msg
    case Text s =>
      cases c
      · exact ⟨by rfl, Or.inl ⟨by rfl, by rfl⟩⟩
      · exact ⟨by rfl, Or.inr ⟨by rfl, by rfl⟩⟩
    case Binary b =>
      cases c
      · exact ⟨by rfl, Or.inl ⟨by rfl, by rfl⟩⟩
      · exact ⟨by rfl, Or.inr ⟨by rfl, by rfl⟩⟩
    case Ping b =>
      cases c
      · exact ⟨by rfl, Or.inl ⟨by rfl, by rfl⟩⟩
      · exact ⟨by rfl, Or.inr ⟨by rfl, by rfl⟩⟩
    case Pong b =>
      cases c
      · exact ⟨by rfl, Or.inl ⟨by rfl, by rfl⟩⟩
      · exact ⟨by rfl, Or.inr ⟨by rfl, by rfl⟩⟩
    case CloseMsg r =>
      exact ⟨by rfl, Or.inl ⟨by rfl, by rfl⟩⟩
    case FrameMsg =>
      exact ⟨by rfl, Or.inr ⟨by rfl, by rfl⟩⟩

/-- Helper: per-iteration analysis of the full async step: it never publishes
Activated, and it either breaks with a publish list satisfying the
closed-ordering predicate or continues with a publish list containing no
ConnectionClosed. -/
lemma asyncStep_props (it : AIter) :
    List.filter isActivatedEvent (asyncStep it).events = [] ∧
    (((asyncStep it).brk = true ∧ quitAfterClosed (asyncStep it).events = true) ∨
     ((asyncStep it).brk = false ∧
       (asyncStep it).events.all (fun e => !isClosedEvent e) = true)) := by
  rcases it with ⟨ctrl, ⟨cw, se, ce⟩, ch, rr⟩
  rcases ctrl with _ | cm
  · have h := asyncReadStep_props ch rr
    simpa [asyncStep] using h
  · rcases cm
    case SendText t =>
      rcases se with _ | e
      · have h := asyncReadStep_props ch rr
        simpa [asyncStep, handle_control_message, socket_send] using h
      · cases ch
        · exact ⟨by simp [asyncStep, handle_control_message, socket_send, isActivatedEvent],
            Or.inl ⟨by simp [asyncStep, handle_control_message, socket_send],
              by simp [asyncStep, handle_control_message, socket_send, quitAfterClosed,
                isClosedEvent]⟩⟩
        · have h := asyncReadStep_props true rr
          rcases h with ⟨h1, h2 | h2⟩
          · refine ⟨?_, Or.inl ⟨?_, ?_⟩⟩
            · simp [asyncStep, handle_control_message, socket_send, isActivatedEvent, h1]
            · simp [asyncStep, handle_control_message, socket_send, h2.1]
            · simp [asyncStep, handle_control_message, socket_send, quitAfterClosed,
                isClosedEvent, h2.2]
          · refine ⟨?_, Or.inr ⟨?_, ?_⟩⟩
            · simp [asyncStep, handle_control_message, socket_send, isActivatedEvent, h1]
            · simp [asyncStep, handle_control_message, socket_send, h2.1]
            · simpa [asyncStep, handle_control_message, socket_send, isClosedEvent] using h2.2
    case SendBinary d =>
      rcases se with _ | e
      · have h := asyncReadStep_props ch rr
        simpa [asyncStep, handle_control_message, socket_send] using h
      · cases ch
        · exact ⟨by simp [asyncStep, handle_control_message, socket_send, isActivatedEvent],
            Or.inl ⟨by simp [asyncStep, handle_control_message, socket_send],
              by simp [asyncStep, handle_control_message, socket_send, quitAfterClosed,
                isClosedEvent]⟩⟩
        · have h := asyncReadStep_props true rr
          rcases h with ⟨h1, h2 | h2⟩
          · refine ⟨?_, Or.inl ⟨?_, ?_⟩⟩
            · simp [asyncStep, handle_control_message, socket_send, isActivatedEvent, h1]
            · simp [asyncStep, handle_control_message, socket_send, h2.1]
            · simp [asyncStep, handle_control_message, socket_send, quitAfterClosed,
                isClosedEvent, h2.2]
          · refine ⟨?_, Or.inr ⟨?_, ?_⟩⟩
            · simp [asyncStep, handle_control_message, socket_send, isActivatedEvent, h1]
            · simp [asyncStep, handle_control_message, socket_send, h2.1]
            · simpa [asyncStep, handle_control_message, socket_send, isClosedEvent] using h2.2
    case SendPing d =>
      rcases se with _ | e
      · have h := asyncReadStep_props ch rr
        simpa [asyncStep, handle_control_message, socket_send] using h
      · cases ch
        · exact ⟨by simp [asyncStep, handle_control_message, socket_send, isActivatedEvent],
            Or.inl ⟨by simp [asyncStep, handle_control_message, socket_send],
              by simp [asyncStep, handle_control_message, socket_send, quitAfterClosed,
                isClosedEvent]⟩⟩
        · have h := asyncReadStep_props true rr
          rcases h with ⟨h1, h2 | h2⟩
          · refine ⟨?_, Or.inl ⟨?_, ?_⟩⟩
            · simp [asyncStep, handle_control_message, socket_send, isActivatedEvent, h1]
            · simp [asyncStep, handle_control_message, socket_send, h2.1]
            · simp [asyncStep, handle_control_message, socket_send, quitAfterClosed,
                isClosedEvent, h2.2]
          · refine ⟨?_, Or.inr ⟨?_, ?_⟩⟩
            · simp [asyncStep, handle_control_message, socket_send, isActivatedEvent, h1]
            · simp [asyncStep, handle_control_message, socket_send, h2.1]
            · simpa [asyncStep, handle_control_message, socket_send, isClosedEvent] using h2.2
    case SendPong d =>
      rcases se with _ | e
      · have h := asyncReadStep_props ch rr
        simpa [asyncStep, handle_control_message, socket_send] using h
      · cases ch
        · exact ⟨by simp [asyncStep, handle_control_message, socket_send, isActivatedEvent],
            Or.inl ⟨by simp [asyncStep, handle_control_message, socket_send],
              by simp [asyncStep, handle_control_message, socket_send, quitAfterClosed,
                isClosedEvent]⟩⟩
        · have h := asyncReadStep_props true rr
          rcases h with ⟨h1, h2 | h2⟩
          · refine ⟨?_, Or.inl ⟨?_, ?_⟩⟩
            · simp [asyncStep, handle_control_message, socket_send, isActivatedEvent, h1]
            · simp [asyncStep, handle_control_message, socket_send, h2.1]
            · simp [asyncStep, handle_control_message, socket_send, quitAfterClosed,
                isClosedEvent, h2.2]
          · refine ⟨?_, Or.inr ⟨?_, ?_⟩⟩
            · simp [asyncStep, handle_control_message, socket_send, isActivatedEvent, h1]
            · simp [asyncStep, handle_control_message, socket_send, h2.1]
            · simpa [asyncStep, handle_control_message, socket_send, isClosedEvent] using h2.2
    case Close =>
      have h := asyncReadStep_props ch rr
      simpa [asyncStep, handle_control_message] using h
    case ForceQuit =>
      exact ⟨by rfl, Or.inl ⟨by rfl, by rfl⟩⟩

/-- Helper: the async loop never publishes Activated. -/
lemma asyncLoop_no_activated (iters : List AIter) :
    List.filter isActivatedEvent (asyncLoop iters) = [] := by
  induction iters with
  | nil => rfl
  | cons it rest ih =>
      rcases asyncStep_props it with ⟨h1, -⟩
      cases hb : (asyncStep it).brk <;>
        simp [asyncLoop, hb, List.filter_append, h1, ih]

/-- Helper: every async loop publish trace satisfies the closed-ordering
predicate. -/
lemma asyncLoop_qac (iters : List AIter) : quitAfterClosed (asyncLoop iters) = true := by
  induction iters with
  | nil => rfl
  | cons it rest ih =>
      rcases asyncStep_props it with ⟨-, h | h⟩
      · simpa [asyncLoop, h.1] using h.2
      · rw [asyncLoop, h.1]
        simpa [qac_append_no_closed _ _ h.2] using ih

/-- C5: for all three strategies every run begins with exactly one Activated
signal (on_activated for the callback strategies, the Activated event for the
async strategy), emitted before any message dispatch; every
on_connection_closed and on_error in a callback trace is immediately followed
by on_quit, every ConnectionClosed publish of the async loop is immediately
followed by a Quit publish, and the terminal read-failure path of the async
loop publishes the ConnectionClosed or Error event immediately followed by
Quit while breaking, never in the opposite order. -/
theorem c5_activation_and_terminal_ordering :
    (∀ fqA iters, (nbRun fqA iters).head? = some CB.activated) ∧
    (∀ fqA iters, List.filter isActivatedCB (nbRun fqA iters) = [CB.activated]) ∧
    (∀ opts fqA iters, (blockingRun opts fqA iters).head? = some CB.activated) ∧
    (∀ opts fqA iters, List.filter isActivatedCB (blockingRun opts fqA iters) = [CB.activated]) ∧
    (∀ iters, (asyncRun iters).head? = some WsEvent.Activated) ∧
    (∀ iters, List.filter isActivatedEvent (asyncRun iters) = [WsEvent.Activated]) ∧
    (∀ fqA iters, quitAfterTerminal (nbRun fqA iters) = true) ∧
    (∀ opts fqA iters, quitAfterTerminal (blockingRun opts fqA iters) = true) ∧
    (∀ iters, quitAfterClosed (asyncRun iters) = true) ∧
    (∀ ch e, asyncReadStep ch (Except.error e) =
      (match handle_read_error e with
       | (none, _) => ([], false)
       | (some msg, true) =>
           ([if is_connection_closed_error msg then WsEvent.ConnectionClosed (some msg)
             else WsEvent.Error msg, WsEvent.Quit], true)
       | (some _, false) => ([], false))) := by
  refine ⟨?_, ?_, ?_, ?_, ?_, ?_, ?_, ?_, ?_, ?_⟩
  · intro fqA iters
    rfl
  · intro fqA iters
    cases fqA <;> simp [nbRun, isActivatedCB, nbLoop_no_activated]
  · intro opts fqA iters
    rfl
  · intro opts fqA iters
    cases fqA <;> simp [blockingRun, isActivatedCB, blockingLoop_no_activated]
  · intro iters
    rfl
  · intro iters
    simp [asyncRun, isActivatedEvent, asyncLoop_no_activated]
  · intro fqA iters
    cases fqA <;>
      simp [nbRun, quitAfterTerminal, isTerminalCB, nbLoop_qat]
  · intro opts fqA iters
    cases fqA <;>
      simp [blockingRun, quitAfterTerminal, isTerminalCB, blockingLoop_qat]
  · intro iters
    simp [asyncRun, quitAfterClosed, isClosedEvent, asyncLoop_qac]
  · intro ch e
    rfl
